import Mathlib

/-!
Verification development for the `fast-interconnects` memory-latency
micro-benchmark.

The embedded code is `gpu_stride_kernel` from
`src/microbench/cudautils/memory_latency.cu` and the two bit utilities
`log2_floor_power_of_two` / `log2_ceil_power_of_two` from the GPU common
header.  Machine integers are modelled as `Nat` with explicit reduction
modulo `2^32` (`uint32_t`) and `2^64` (`uint64_t`).  The device clock
`clock64()` is external hardware state, so its two samples `start` and
`stop` are parameters of the embedded kernel.  Undefined behaviour
(out-of-range buffer access, division by zero) is modelled by `Option`:
the embedded kernel returns `none` exactly where the CUDA code's
behaviour is undefined.
-/

/-- Modulus of the C type `uint32_t`. -/
def U32 : Nat := 4294967296

/-- Modulus of the C type `uint64_t`. -/
def U64 : Nat := 18446744073709551616

/-- One phase of the pointer-chase engine (the loop body at lines 17-22 and
32-37 of `memory_latency.cu`): perform `n` hops `pos = data[pos]`, each hop
accumulating the new position into the `dependency` sink with `uint32_t`
wrap-around.  An out-of-range access (undefined behaviour in CUDA C++) is
`none`. -/
def chase (data : List Nat) : Nat → Nat → Nat → Option (Nat × Nat)
  | 0, pos, dep => some (pos, dep)
  | n + 1, pos, dep =>
    match data[pos]? with
    | some p => chase data n p ((dep + p) % U32)
    | none => none

/-- The reset between the two phases (lines 25-27 of `memory_latency.cu`):
`if (pos != 0) { pos = 0; }`. -/
def resetPos (pos : Nat) : Nat := if pos ≠ 0 then 0 else pos

/-- The kernel `gpu_stride_kernel(uint32_t *data, uint32_t iterations)` of
`memory_latency.cu`.  `start` and `stop` are the two `clock64()` samples
(external hardware inputs).  The kernel runs the warm-up phase from
position 0, resets the position, runs the measurement phase (the
`dependency` accumulator carries over, it is not reset), computes
`sum = stop - start` in `uint64_t` arithmetic, writes
`(uint32_t)(sum / (uint64_t)iterations)` into `data[0]`, and finally
writes `dependency` into `data[1]` when the final position equals 1.
Division by zero (`iterations = 0`) is undefined behaviour, modelled as
`none`. -/
def gpu_stride_kernel (data : List Nat) (iterations start stop : Nat) :
    Option (List Nat) :=
  match chase data iterations 0 0 with
  | none => none
  | some (pos1, dep1) =>
    match chase data iterations (resetPos pos1) dep1 with
    | none => none
    | some (pos2, dep2) =>
      let sum : Nat := (U64 + stop - start) % U64
      if iterations = 0 then none
      else
        let avg : Nat := (sum / iterations) % U32
        let d1 := data.set 0 avg
        some (if pos2 = 1 then d1.set 1 dep2 else d1)

/-- The buffer-indexing function of the chase: `data[q]`, totalised with
default 0 (only ever applied in range in the theorems below). -/
def bufFn (data : List Nat) (q : Nat) : Nat := data.getD q 0

/-- Every stored index is in range, so every `data[pos]` access of the
kernel is defined. -/
def validBuffer (data : List Nat) : Prop := ∀ p ∈ data, p < data.length

instance (data : List Nat) : Decidable (validBuffer data) :=
  List.decidableBAll _ data

/-- Modelled from the spec: the Dependency Sink contract of the
Pointer-Chase Engine, "accumulating `position` into the Dependency Sink
each hop" — on each hop the new position `f pos` is added into the
accumulator (with `uint32_t` wrap-around), written directly from the
spec's words for comparison with the source-level `chase`. -/
def sinkSpec (f : Nat → Nat) : Nat → Nat → Nat → Nat
  | 0, _, dep => dep
  | n + 1, pos, dep => sinkSpec f n (f pos) ((dep + f pos) % U32)

/-- The sequence of positions visited by one phase of the pointer-chase
loop, derived from the source loop by recording `pos` after each hop. -/
def chaseTrace (data : List Nat) : Nat → Nat → Option (List Nat)
  | 0, _ => some []
  | n + 1, pos =>
    match data[pos]? with
    | some p => (chaseTrace data n p).map (p :: ·)
    | none => none

/-- The host-side precondition on the chase buffer: a permutation of
`[0, N)` forming a single cycle through position 0. -/
def isSingleCyclePerm (data : List Nat) : Prop :=
  data.Nodup ∧ validBuffer data ∧
    ∀ i < data.length, ∃ k < data.length, (bufFn data)^[k] 0 = i

instance (data : List Nat) : Decidable (isSingleCyclePerm data) := by
  unfold isSingleCyclePerm
  infer_instance

/-- Count of leading zero bits of a 32-bit value: the CUDA intrinsic
`__clz`, with `__clz(0) = 32`. -/
def clz32 (x : Nat) : Nat := if x = 0 then 32 else 31 - Nat.log2 x

/-- The device helper `int log2_floor_power_of_two(int x)` from the GPU
common header: `return 32 - __clz(x) - 1;`. -/
def log2_floor_power_of_two (x : Nat) : Int := 32 - (clz32 x : Int) - 1

/-- The device helper `int log2_ceil_power_of_two(int x)` from the GPU
common header: `return 32 - __clz(x - 1);`. -/
def log2_ceil_power_of_two (x : Nat) : Int := 32 - (clz32 (x - 1) : Int)

/-! ### Helper lemmas about the embedded kernel -/

theorem bufFn_lt (data : List Nat) (hv : validBuffer data) (q : Nat)
    (hq : q < data.length) : bufFn data q < data.length := by
  have hmem : data[q] ∈ data := List.getElem_mem hq
  have : bufFn data q = data[q] := by
    simp [bufFn, List.getD_eq_getElem?_getD, List.getElem?_eq_getElem hq]
  rw [this]
  exact hv _ hmem

theorem chase_eq_of_valid (data : List Nat) (hv : validBuffer data) :
    ∀ (n pos dep : Nat), pos < data.length →
      chase data n pos dep =
        some ((bufFn data)^[n] pos, sinkSpec (bufFn data) n pos dep) := by
  intro n
  induction n with
  | zero => intro pos dep _; simp [chase, sinkSpec]
  | succ n ih =>
    intro pos dep hpos
    have hget : data[pos]? = some data[pos] := List.getElem?_eq_getElem hpos
    have hbuf : bufFn data pos = data[pos] := by
      simp [bufFn, List.getD_eq_getElem?_getD, hget]
    have hlt : bufFn data pos < data.length := bufFn_lt data hv pos hpos
    calc chase data (n + 1) pos dep
        = chase data n (bufFn data pos) ((dep + bufFn data pos) % U32) := by
          simp [chase, hget, hbuf]
      _ = some ((bufFn data)^[n] (bufFn data pos),
            sinkSpec (bufFn data) n (bufFn data pos)
              ((dep + bufFn data pos) % U32)) := ih _ _ hlt
      _ = some ((bufFn data)^[n + 1] pos,
            sinkSpec (bufFn data) (n + 1) pos dep) := by
          rw [Function.iterate_succ_apply]; rfl

theorem resetPos_eq_zero (p : Nat) : resetPos p = 0 := by
  by_cases h : p = 0 <;> simp [resetPos, h]

theorem chase_fst_indep (data : List Nat) :
    ∀ (n pos dep dep' : Nat),
      (chase data n pos dep).map Prod.fst =
        (chase data n pos dep').map Prod.fst := by
  intro n
  induction n with
  | zero => intro pos dep dep'; simp [chase]
  | succ n ih =>
    intro pos dep dep'
    cases hget : data[pos]? with
    | none => simp [chase, hget]
    | some p => simp only [chase, hget]; exact ih _ _ _

/-- Full characterization of the embedded kernel on a valid buffer with a
positive iteration count. -/
theorem gpu_stride_kernel_eq (data : List Nat) (n start stop : Nat)
    (hv : validBuffer data) (hlen : 0 < data.length) (hn : n ≠ 0) :
    gpu_stride_kernel data n start stop =
      some (if (bufFn data)^[n] 0 = 1
            then (data.set 0 ((((U64 + stop - start) % U64) / n) % U32)).set 1
                   (sinkSpec (bufFn data) n 0 (sinkSpec (bufFn data) n 0 0))
            else data.set 0 ((((U64 + stop - start) % U64) / n) % U32)) := by
  have h1 := chase_eq_of_valid data hv n 0 0 hlen
  have h2 := chase_eq_of_valid data hv n 0 (sinkSpec (bufFn data) n 0 0) hlen
  unfold gpu_stride_kernel
  rw [h1]
  simp only [resetPos_eq_zero]
  rw [h2]
  simp [hn]

theorem set_set_getElem?_high (l : List Nat) (v w i : Nat) (hi : 2 ≤ i) :
    ((l.set 0 v).set 1 w)[i]? = l[i]? := by
  rw [List.getElem?_set_ne (by omega), List.getElem?_set_ne (by omega)]

theorem set_getElem?_high (l : List Nat) (v i : Nat) (hi : 2 ≤ i) :
    (l.set 0 v)[i]? = l[i]? := List.getElem?_set_ne (by omega)

theorem getD0_set_set (l : List Nat) (v w : Nat) (h : 0 < l.length) :
    ((l.set 0 v).set 1 w).getD 0 0 = v := by
  rw [List.getD_eq_getElem?_getD, List.getElem?_set_ne (by omega),
    List.getElem?_set_self (by simpa using h)]
  rfl

theorem getD0_set (l : List Nat) (v : Nat) (h : 0 < l.length) :
    (l.set 0 v).getD 0 0 = v := by
  rw [List.getD_eq_getElem?_getD, List.getElem?_set_self (by simpa using h)]
  rfl

theorem getD1_set_set (l : List Nat) (v w : Nat) (h : 1 < l.length) :
    ((l.set 0 v).set 1 w).getD 1 0 = w := by
  rw [List.getD_eq_getElem?_getD, List.getElem?_set_self (by simpa using h)]
  rfl

theorem getD1_set (l : List Nat) (v : Nat) :
    (l.set 0 v).getD 1 0 = l.getD 1 0 := by
  rw [List.getD_eq_getElem?_getD, List.getElem?_set_ne (by omega),
    ← List.getD_eq_getElem?_getD]

theorem elapsed_eq (start stop : Nat) (hss : start ≤ stop) (hstop : stop < U64) :
    (U64 + stop - start) % U64 = stop - start := by
  have h1 : U64 + stop - start = U64 + (stop - start) := by omega
  rw [h1, Nat.add_mod_left]
  exact Nat.mod_eq_of_lt (by omega)

theorem kernel_slot0 (data : List Nat) (n start stop : Nat)
    (hv : validBuffer data) (hlen : 0 < data.length) (hn : 0 < n) :
    (gpu_stride_kernel data n start stop).map (fun out => out.getD 0 0) =
      some ((((U64 + stop - start) % U64) / n) % U32) := by
  rw [gpu_stride_kernel_eq data n start stop hv hlen (by omega)]
  by_cases hg : (bufFn data)^[n] 0 = 1
  · rw [if_pos hg]
    simp only [Option.map_some']
    rw [getD0_set_set _ _ _ hlen]
  · rw [if_neg hg]
    simp only [Option.map_some']
    rw [getD0_set _ _ hlen]

theorem kernel_slot1 (data : List Nat) (n start stop : Nat)
    (hv : validBuffer data) (hlen : 1 < data.length) (hn : 0 < n) :
    (gpu_stride_kernel data n start stop).map (fun out => out.getD 1 0) =
      some (if (bufFn data)^[n] 0 = 1
            then sinkSpec (bufFn data) n 0 (sinkSpec (bufFn data) n 0 0)
            else data.getD 1 0) := by
  rw [gpu_stride_kernel_eq data n start stop hv (by omega) (by omega)]
  by_cases hg : (bufFn data)^[n] 0 = 1
  · rw [if_pos hg, if_pos hg]
    simp only [Option.map_some']
    rw [getD1_set_set _ _ _ hlen]
  · rw [if_neg hg, if_neg hg]
    simp only [Option.map_some']
    rw [getD1_set]

/-! ### Claim theorems -/

/-- Claim C4: each phase of the pointer-chase engine performs exactly
`iterations` hops `position <- buffer[position]` from the current
position, adding the new position into the dependency sink each hop
(`sinkSpec`, written from the spec's words); the final position is the
`iterations`-fold iterate of the buffer-indexing function applied to the
starting position. -/
theorem C4_chase_phase (data : List Nat) (n pos dep : Nat)
    (hv : validBuffer data) (hpos : pos < data.length) :
    chase data n pos dep =
      some ((bufFn data)^[n] pos, sinkSpec (bufFn data) n pos dep) :=
  chase_eq_of_valid data hv n pos dep hpos

theorem C4_chase_phase_witness :
    (validBuffer [1, 2, 3, 0] ∧ (0 : Nat) < [1, 2, 3, 0].length) ∧
      chase [1, 2, 3, 0] 3 0 0 =
        some ((bufFn [1, 2, 3, 0])^[3] 0, sinkSpec (bufFn [1, 2, 3, 0]) 3 0 0) :=
  ⟨⟨by decide, by decide⟩, C4_chase_phase [1, 2, 3, 0] 3 0 0 (by decide) (by decide)⟩

/-- Claim C5: the reset between phases forces the chain position to 0 no matter
where the warm-up ended, so the measurement phase starts at the warm-up's
entry point, visits exactly the same sequence of positions, and ends at
the same position regardless of the carried dependency value. -/
theorem C5_reset_and_same_trace (data : List Nat) (n p1 : Nat) :
    resetPos p1 = 0 ∧
      chaseTrace data n (resetPos p1) = chaseTrace data n 0 ∧
      ∀ dep dep', (chase data n (resetPos p1) dep).map Prod.fst =
        (chase data n 0 dep').map Prod.fst := by
  refine ⟨resetPos_eq_zero p1, ?_, ?_⟩
  · rw [resetPos_eq_zero]
  · intro dep dep'
    rw [resetPos_eq_zero]
    exact chase_fst_indep data n 0 dep dep'

/-- Claim C6: with `iterations = 0` the kernel hits the division by zero at
`sum / iterations` (modelled as `none`); under the caller precondition
`iterations > 0` (and a valid buffer) the division is well-defined and
the kernel produces a result. -/
theorem C6_division_by_zero :
    (∀ (data : List Nat) (start stop : Nat),
        gpu_stride_kernel data 0 start stop = none) ∧
      ∀ (data : List Nat) (n start stop : Nat), validBuffer data →
        0 < data.length → 0 < n →
        ∃ out, gpu_stride_kernel data n start stop = some out := by
  constructor
  · intro data start stop
    rfl
  · intro data n start stop hv hlen hn
    exact ⟨_, gpu_stride_kernel_eq data n start stop hv hlen (by omega)⟩

theorem C6_division_by_zero_witness :
    gpu_stride_kernel [1, 0] 0 3 7 = none ∧
      (validBuffer [1, 0] ∧ (0 : Nat) < [1, 0].length ∧ (0 : Nat) < 2) ∧
      ∃ out, gpu_stride_kernel [1, 0] 2 3 7 = some out :=
  ⟨C6_division_by_zero.1 [1, 0] 3 7, ⟨by decide, by decide, by decide⟩,
    C6_division_by_zero.2 [1, 0] 2 3 7 (by decide) (by decide) (by decide)⟩

/-- Claim C1, counterexample: the claim says buffer slot 0 receives the exact
quotient (stop - start) / iterations, but the `uint32_t` cast truncates
it modulo 2^32: with buffer `[1, 0]`, 1 iteration, start 0 and stop 2^32
the quotient is 2^32 while slot 0 receives 0. -/
theorem C1_counterexample :
    ¬ ((gpu_stride_kernel [1, 0] 1 0 4294967296).map (fun out => out.getD 0 0) =
        some ((4294967296 - 0) / 1)) := by decide

/-- Claim C1 (amended): for every valid buffer and every iterations > 0, the
kernel computes the average latency as the elapsed-cycle count
(stop - start) divided by iterations with truncating integer division,
and unconditionally writes this average reduced modulo 2^32 (the
`uint32_t` cast) into buffer slot 0, overwriting the chain value stored
there. -/
theorem C1_average_latency_write (data : List Nat) (n start stop : Nat)
    (hv : validBuffer data) (hlen : 0 < data.length) (hn : 0 < n)
    (hss : start ≤ stop) (hstop : stop < U64) :
    ∃ out, gpu_stride_kernel data n start stop = some out ∧
      out.getD 0 0 = ((stop - start) / n) % U32 := by
  have h0 := kernel_slot0 data n start stop hv hlen hn
  rw [elapsed_eq start stop hss hstop] at h0
  rcases Option.map_eq_some'.1 h0 with ⟨out, hout, hval⟩
  exact ⟨out, hout, hval⟩

theorem C1_average_latency_write_witness :
    (validBuffer [1, 0] ∧ (0 : Nat) < [1, 0].length ∧ (0 : Nat) < 2 ∧
        (3 : Nat) ≤ 13 ∧ (13 : Nat) < U64) ∧
      ∃ out, gpu_stride_kernel [1, 0] 2 3 13 = some out ∧
        out.getD 0 0 = ((13 - 3) / 2) % U32 :=
  ⟨⟨by decide, by decide, by decide, by decide, by decide⟩,
    C1_average_latency_write [1, 0] 2 3 13 (by decide) (by decide) (by decide)
      (by decide) (by decide)⟩

/-- Claim C2, counterexample: the guarded write to buffer slot 1 is reachable;
with buffer `[1, 0]` and 1 iteration the measurement phase ends at
position 1, the guard fires, and slot 1 changes from 0 to the dependency
value 2. -/
theorem C2_counterexample :
    ¬ ((gpu_stride_kernel [1, 0] 1 0 10).map (fun out => out.getD 1 0) =
        some ([1, 0].getD 1 0)) := by decide

/-- Claim C2 (amended): the guarded write to buffer slot 1 executes precisely
when the measurement phase's final position (the iterations-fold iterate
of the buffer-indexing function from 0) equals 1; whenever that final
position differs from 1, slot 1 is left unchanged. -/
theorem C2_guarded_write (data : List Nat) (n start stop : Nat)
    (hv : validBuffer data) (hlen : 1 < data.length) (hn : 0 < n) :
    (gpu_stride_kernel data n start stop).map (fun out => out.getD 1 0) =
      some (if (bufFn data)^[n] 0 = 1
            then sinkSpec (bufFn data) n 0 (sinkSpec (bufFn data) n 0 0)
            else data.getD 1 0) :=
  kernel_slot1 data n start stop hv hlen hn

theorem C2_guarded_write_witness :
    (validBuffer [1, 2, 3, 0] ∧ (1 : Nat) < [1, 2, 3, 0].length ∧ (0 : Nat) < 4) ∧
      (gpu_stride_kernel [1, 2, 3, 0] 4 0 12).map (fun out => out.getD 1 0) =
        some (if (bufFn [1, 2, 3, 0])^[4] 0 = 1
              then sinkSpec (bufFn [1, 2, 3, 0]) 4 0
                (sinkSpec (bufFn [1, 2, 3, 0]) 4 0 0)
              else [1, 2, 3, 0].getD 1 0) :=
  ⟨⟨by decide, by decide, by decide⟩,
    C2_guarded_write [1, 2, 3, 0] 4 0 12 (by decide) (by decide) (by decide)⟩

/-- Claim C3: for every valid single-cycle permutation buffer of length ≥ 2 and
every iterations > 0, the kernel succeeds, writes a non-negative integer
into slot 0, and leaves every buffer element at index ≥ 2 unmodified. -/
theorem C3_frame (data : List Nat) (n start stop : Nat)
    (hperm : isSingleCyclePerm data) (hlen : 2 ≤ data.length) (hn : 0 < n) :
    ∃ out, gpu_stride_kernel data n start stop = some out ∧
      0 ≤ out.getD 0 0 ∧ ∀ i, 2 ≤ i → out[i]? = data[i]? := by
  obtain ⟨-, hv, -⟩ := hperm
  refine ⟨_, gpu_stride_kernel_eq data n start stop hv (by omega) (by omega),
    Nat.zero_le _, ?_⟩
  intro i hi
  by_cases hg : (bufFn data)^[n] 0 = 1
  · rw [if_pos hg, set_set_getElem?_high _ _ _ _ hi]
  · rw [if_neg hg, set_getElem?_high _ _ _ hi]

theorem C3_frame_witness :
    (isSingleCyclePerm [1, 0] ∧ (2 : Nat) ≤ [1, 0].length ∧ (0 : Nat) < 2) ∧
      ∃ out, gpu_stride_kernel [1, 0] 2 0 10 = some out ∧
        0 ≤ out.getD 0 0 ∧ ∀ i, 2 ≤ i → out[i]? = [1, 0][i]? :=
  ⟨⟨by decide, by decide, by decide⟩,
    C3_frame [1, 0] 2 0 10 (by decide) (by decide) (by decide)⟩

/-- Claim C8, counterexample: the dependency accumulator is not reset between
phases, so the warm-up's sink value does contribute to the value stored
in buffer slot 1: with buffer `[1, 0]` and 1 iteration the stored value
is 2 (warm-up hop + measurement hop), not the measurement phase's own
accumulation 1. -/
theorem C8_counterexample :
    ¬ ((gpu_stride_kernel [1, 0] 1 0 10).map (fun out => out.getD 1 0) =
        some (sinkSpec (bufFn [1, 0]) 1 0 0)) := by decide

/-- Claim C8 (amended): the warm-up's final chain position is discarded by the
reset, and the value written to buffer slot 0 is independent of the
dependency sink; but the sink carries across phases, so when the guarded
write to slot 1 occurs the stored value is the warm-up accumulation
continued through the measurement phase, not the measurement phase's
accumulation alone. -/
theorem C8_sink_carryover (data : List Nat) (n start stop : Nat)
    (hv : validBuffer data) (hlen : 1 < data.length) (hn : 0 < n)
    (hguard : (bufFn data)^[n] 0 = 1) :
    (gpu_stride_kernel data n start stop).map (fun out => out.getD 1 0) =
      some (sinkSpec (bufFn data) n 0 (sinkSpec (bufFn data) n 0 0)) ∧
    (gpu_stride_kernel data n start stop).map (fun out => out.getD 0 0) =
      some ((((U64 + stop - start) % U64) / n) % U32) := by
  constructor
  · rw [kernel_slot1 data n start stop hv hlen hn, if_pos hguard]
  · exact kernel_slot0 data n start stop hv (by omega) hn

theorem C8_sink_carryover_witness :
    (validBuffer [1, 0] ∧ (1 : Nat) < [1, 0].length ∧ (0 : Nat) < 1 ∧
        (bufFn [1, 0])^[1] 0 = 1) ∧
      ((gpu_stride_kernel [1, 0] 1 0 10).map (fun out => out.getD 1 0) =
          some (sinkSpec (bufFn [1, 0]) 1 0 (sinkSpec (bufFn [1, 0]) 1 0 0)) ∧
        (gpu_stride_kernel [1, 0] 1 0 10).map (fun out => out.getD 0 0) =
          some ((((U64 + 10 - 0) % U64) / 1) % U32)) :=
  ⟨⟨by decide, by decide, by decide, by decide⟩,
    C8_sink_carryover [1, 0] 1 0 10 (by decide) (by decide) (by decide) (by decide)⟩

/-- Claim C9: buffer slot 0 receives the 64-bit truncated quotient reduced
modulo 2^32, and an average of 2^32 or more wraps silently: the run still
succeeds and the stored value differs from the true quotient. -/
theorem C9_avg_wraps_mod_u32 (data : List Nat) (n start stop : Nat)
    (hv : validBuffer data) (hlen : 0 < data.length) (hn : 0 < n)
    (hss : start ≤ stop) (hstop : stop < U64) :
    (gpu_stride_kernel data n start stop).map (fun out => out.getD 0 0) =
      some (((stop - start) / n) % U32) ∧
    (U32 ≤ (stop - start) / n →
      ∀ out, gpu_stride_kernel data n start stop = some out →
        out.getD 0 0 ≠ (stop - start) / n) := by
  have h0 := kernel_slot0 data n start stop hv hlen hn
  rw [elapsed_eq start stop hss hstop] at h0
  refine ⟨h0, ?_⟩
  intro hbig out hout hval
  rw [hout] at h0
  simp only [Option.map_some', Option.some.injEq] at h0
  have hlt : ((stop - start) / n) % U32 < U32 :=
    Nat.mod_lt _ (by norm_num [U32])
  omega

theorem C9_avg_wraps_mod_u32_witness :
    (validBuffer [1, 0] ∧ (0 : Nat) < [1, 0].length ∧ (0 : Nat) < 1 ∧
        (0 : Nat) ≤ 4294967296 ∧ (4294967296 : Nat) < U64) ∧
      ((gpu_stride_kernel [1, 0] 1 0 4294967296).map (fun out => out.getD 0 0) =
          some (((4294967296 - 0) / 1) % U32) ∧
        (U32 ≤ (4294967296 - 0) / 1 →
          ∀ out, gpu_stride_kernel [1, 0] 1 0 4294967296 = some out →
            out.getD 0 0 ≠ (4294967296 - 0) / 1)) :=
  ⟨⟨by decide, by decide, by decide, by decide, by decide⟩,
    C9_avg_wraps_mod_u32 [1, 0] 1 0 4294967296 (by decide) (by decide)
      (by decide) (by decide) (by decide)⟩

/-! ### Lemmas about the bit utilities -/

theorem clz32_of_pos (x : Nat) (h1 : 1 ≤ x) : clz32 x = 31 - Nat.log 2 x := by
  rw [clz32, if_neg (by omega), Nat.log2_eq_log_two]

theorem log_two_le_31 (x : Nat) (h1 : 1 ≤ x) (h2 : x < 2 ^ 32) :
    Nat.log 2 x ≤ 31 := by
  have := Nat.log_lt_of_lt_pow (b := 2) (x := 32) (by omega : x ≠ 0) h2
  omega

theorem floor_eq_log (x : Nat) (h1 : 1 ≤ x) (h2 : x < 2 ^ 32) :
    log2_floor_power_of_two x = (Nat.log 2 x : Int) := by
  have hle := log_two_le_31 x h1 h2
  rw [log2_floor_power_of_two, clz32_of_pos x h1]
  omega

theorem ceil_eq_log (x : Nat) (h1 : 2 ≤ x) (h2 : x - 1 < 2 ^ 32) :
    log2_ceil_power_of_two x = (Nat.log 2 (x - 1) : Int) + 1 := by
  have h1' : 1 ≤ x - 1 := by omega
  have hle := log_two_le_31 (x - 1) h1' h2
  rw [log2_ceil_power_of_two, clz32_of_pos (x - 1) h1']
  omega

theorem log_pred_pow (k : Nat) (hk : 1 ≤ k) : Nat.log 2 (2 ^ k - 1) = k - 1 := by
  have ha : 1 ≤ 2 ^ (k - 1) := Nat.one_le_two_pow
  have hpow : 2 ^ k = 2 ^ (k - 1) * 2 := by
    rw [← Nat.pow_succ]
    congr 1
    omega
  apply Nat.log_eq_of_pow_le_of_lt_pow
  · omega
  · rw [Nat.pow_succ]
    omega

/-- Claim C7: for every int32 input x ≥ 1, `2 ^ floor_log2 x ≤ x ≤ 2 ^ ceil_log2 x`
(the integer rendering of `floor_log2 x ≤ log2 x ≤ ceil_log2 x`), with
equality on either side exactly when x is a power of two; and the concrete
values floor(1) = 0, ceil(1) = 0, floor(8) = 3, ceil(8) = 3, floor(9) = 3,
ceil(9) = 4. -/
theorem C7_log2_floor_ceil (x : Nat) (hx : 1 ≤ x ∧ x < 2 ^ 31) :
    (0 ≤ log2_floor_power_of_two x ∧ 0 ≤ log2_ceil_power_of_two x ∧
      2 ^ (log2_floor_power_of_two x).toNat ≤ x ∧
      x ≤ 2 ^ (log2_ceil_power_of_two x).toNat ∧
      (2 ^ (log2_floor_power_of_two x).toNat = x ↔ ∃ k, x = 2 ^ k) ∧
      (2 ^ (log2_ceil_power_of_two x).toNat = x ↔ ∃ k, x = 2 ^ k)) ∧
    log2_floor_power_of_two 1 = 0 ∧ log2_ceil_power_of_two 1 = 0 ∧
    log2_floor_power_of_two 8 = 3 ∧ log2_ceil_power_of_two 8 = 3 ∧
    log2_floor_power_of_two 9 = 3 ∧ log2_ceil_power_of_two 9 = 4 := by
  obtain ⟨h1, h31⟩ := hx
  constructor
  · by_cases hx1 : x = 1
    · subst hx1
      have hf : log2_floor_power_of_two 1 = 0 := by
        simp [log2_floor_power_of_two, clz32, Nat.log2]
      have hc : log2_ceil_power_of_two 1 = 0 := by
        simp [log2_ceil_power_of_two, clz32, Nat.log2]
      rw [hf, hc]
      refine ⟨le_refl 0, le_refl 0, by norm_num, by norm_num, ?_, ?_⟩ <;>
        exact ⟨fun _ => ⟨0, rfl⟩, fun _ => by norm_num⟩
    · have h2 : 2 ≤ x := by omega
      have hf := floor_eq_log x h1 (by omega)
      have hc := ceil_eq_log x h2 (by omega)
      have hft : (log2_floor_power_of_two x).toNat = Nat.log 2 x := by
        rw [hf, Int.toNat_natCast]
      have hct : (log2_ceil_power_of_two x).toNat = Nat.log 2 (x - 1) + 1 := by
        rw [hc]
        omega
      refine ⟨by rw [hf]; exact Int.natCast_nonneg _,
        by rw [hc]; positivity, ?_, ?_, ?_, ?_⟩
      · rw [hft]
        exact Nat.pow_log_le_self 2 (by omega)
      · rw [hct]
        have := Nat.lt_pow_succ_log_self (b := 2) (by norm_num) (x - 1)
        omega
      · rw [hft]
        constructor
        · intro he
          exact ⟨Nat.log 2 x, he.symm⟩
        · rintro ⟨k, rfl⟩
          rw [Nat.log_pow (by norm_num)]
      · rw [hct]
        constructor
        · intro he
          exact ⟨Nat.log 2 (x - 1) + 1, he.symm⟩
        · rintro ⟨k, rfl⟩
          have hk : 1 ≤ k := by
            by_contra hk0
            have : k = 0 := by omega
            subst this
            simp at h2
          rw [log_pred_pow k hk]
          congr 1
          omega
  · refine ⟨?_, ?_, ?_, ?_, ?_, ?_⟩ <;>
      first
        | simp [log2_floor_power_of_two, clz32, Nat.log2]
        | simp [log2_ceil_power_of_two, clz32, Nat.log2]

theorem C7_log2_floor_ceil_witness :
    ((1 : Nat) ≤ 9 ∧ (9 : Nat) < 2 ^ 31) ∧
      ((0 ≤ log2_floor_power_of_two 9 ∧ 0 ≤ log2_ceil_power_of_two 9 ∧
          2 ^ (log2_floor_power_of_two 9).toNat ≤ 9 ∧
          9 ≤ 2 ^ (log2_ceil_power_of_two 9).toNat ∧
          (2 ^ (log2_floor_power_of_two 9).toNat = 9 ↔ ∃ k, 9 = 2 ^ k) ∧
          (2 ^ (log2_ceil_power_of_two 9).toNat = 9 ↔ ∃ k, 9 = 2 ^ k)) ∧
        log2_floor_power_of_two 1 = 0 ∧ log2_ceil_power_of_two 1 = 0 ∧
        log2_floor_power_of_two 8 = 3 ∧ log2_ceil_power_of_two 8 = 3 ∧
        log2_floor_power_of_two 9 = 3 ∧ log2_ceil_power_of_two 9 = 4) :=
  ⟨⟨by decide, by decide⟩, C7_log2_floor_ceil 9 ⟨by decide, by decide⟩⟩

/-- Claim C10: for every x ≥ 2, ceil_log2 x = floor_log2 (x - 1) + 1 — both are
defined by counting leading zero bits of a 32-bit value, floor on x and
ceil on x - 1, so the identity is immediate from the two definitions. -/
theorem C10_ceil_eq_floor_pred_succ (x : Nat) (h : 2 ≤ x) :
    log2_ceil_power_of_two x = log2_floor_power_of_two (x - 1) + 1 := by
  rw [log2_ceil_power_of_two, log2_floor_power_of_two]
  ring

theorem C10_ceil_eq_floor_pred_succ_witness :
    (2 : Nat) ≤ 9 ∧
      log2_ceil_power_of_two 9 = log2_floor_power_of_two (9 - 1) + 1 :=
  ⟨by decide, C10_ceil_eq_floor_pred_succ 9 (by decide)⟩

example : log2_floor_power_of_two 1 = 0 := by
  simp [log2_floor_power_of_two, clz32, Nat.log2]
example : log2_ceil_power_of_two 1 = 0 := by
  simp [log2_ceil_power_of_two, clz32, Nat.log2]
example : log2_floor_power_of_two 8 = 3 := by
  simp [log2_floor_power_of_two, clz32, Nat.log2]
example : log2_ceil_power_of_two 8 = 3 := by
  simp [log2_ceil_power_of_two, clz32, Nat.log2]
example : log2_floor_power_of_two 9 = 3 := by
  simp [log2_floor_power_of_two, clz32, Nat.log2]
example : log2_ceil_power_of_two 9 = 4 := by
  simp [log2_ceil_power_of_two, clz32, Nat.log2]
example : gpu_stride_kernel [1, 0] 1 0 10 = some [10, 2] := by decide
example : gpu_stride_kernel [1, 0] 2 0 10 = some [5, 0] := by decide
example : gpu_stride_kernel [1, 0] 0 0 10 = none := by decide
example : isSingleCyclePerm [1, 2, 3, 0] := by decide
